import Mathlib

/-!
# Verification of the peach stream-resolution server

Shallow embedding of the `/get` resolution cascade and the provider
client lifecycle manager from `src/server/src/routes/source.ts` and
`src/server/src/utils/providerManager.ts`.

JavaScript optional fields are modelled as `Option String`; JS
truthiness of a string value (absent or the empty string is falsy)
is modelled by `jsTruthy`.
-/

/-- JS truthiness for an optional string: `undefined`/`null` and `""` are falsy. -/
def jsTruthy (v : Option String) : Bool :=
  match v with
  | some s => s ≠ ""
  | none => false

/-- JS `a || d` for an optional string `a` and string default `d`. -/
def jsOr (v : Option String) (d : String) : String :=
  match v with
  | some s => if s = "" then d else s
  | none => d

/-- JS `a || b || undefined` for optional strings. -/
def jsOr3 (a b : Option String) : Option String :=
  if jsTruthy a then a else if jsTruthy b then b else none

/-- The `type` tag of a raw provider stream (`'hls'`, `'file'`, or anything else). -/
inductive StreamType where
  | hls
  | file
  | other
deriving DecidableEq

/-- A file descriptor inside `stream.qualities` / `stream.file` (`fileData`). -/
structure FileData where
  url : Option String
deriving DecidableEq

/-- A raw caption entry as delivered by the provider library. -/
structure RawCaption where
  label : Option String
  language : Option String
  url : Option String
  src : Option String
deriving DecidableEq

/-- The raw stream shape delivered by the provider library.
`qualities` maps quality labels to file descriptors (a `fileData` entry may
itself be null); `captions` is `none` when absent or not an array; `headers`
values are `none` when not of string type. `quality` and `file` are the
fields read only by the unused helper `convertStreamToQuality`. -/
structure RawStream where
  type : StreamType
  playlist : Option String
  qualities : Option (List (String × Option FileData))
  captions : Option (List RawCaption)
  headers : Option (List (String × Option String))
  quality : Option String
  file : Option FileData
deriving DecidableEq

/-- Structure `StreamQuality` from `source.ts`. -/
structure StreamQuality where
  quality : String
  url : String
deriving DecidableEq

/-- Structure `Caption` from `source.ts` (`default` is the positional default flag). -/
structure Caption where
  language : String
  url : String
  default : Bool
deriving DecidableEq

/-- Response `data.type`: `'hls' | 'mp4'`. -/
inductive MediaType where
  | hls
  | mp4
deriving DecidableEq

/-- The `streamType` variable of the handler: initialised to `'mp4'`,
set to `'hls'` only when the raw stream's type is `'hls'`. -/
def streamTypeOf (st : RawStream) : MediaType :=
  match st.type with
  | .hls => .hls
  | _ => .mp4

/-- The inline `qualitiesArray` construction repeated at the aggregate,
individual-source and embed steps of the handler: an HLS stream with a
truthy `playlist` contributes one `{quality: 'auto', url: playlist}` entry;
a file stream contributes one entry per `qualities` key whose `fileData`
and `fileData.url` are truthy; any other type contributes nothing. -/
def buildQualities (st : RawStream) : List StreamQuality :=
  match st.type with
  | .hls =>
    if jsTruthy st.playlist then
      [{ quality := "auto", url := st.playlist.getD "" }]
    else []
  | .file =>
    match st.qualities with
    | some qs =>
      qs.filterMap fun p =>
        match p.2 with
        | some fd => if jsTruthy fd.url then some { quality := jsOr (some p.1) "auto", url := fd.url.getD "" } else none
        | none => none
    | none => []
  | .other => []

/-- The body of the inline caption `forEach` of the handler, with `k` the
index of the first element of the remaining list:
`language = caption.language || "Subtitle {index+1}"`, `url = caption.url || ''`,
`default = (index === 0)`. -/
def captionsFrom (k : Nat) : List RawCaption → List Caption
  | [] => []
  | c :: rest =>
    { language := jsOr c.language ("Subtitle " ++ toString (k + 1)),
      url := jsOr c.url "",
      default := k == 0 } :: captionsFrom (k + 1) rest

/-- The inline caption extraction repeated at the aggregate,
individual-source and embed steps of the handler (`none` models an
absent or non-array `captions` field). -/
def extractCaptionsInline (captions : Option (List RawCaption)) : List Caption :=
  match captions with
  | some cs => captionsFrom 0 cs
  | none => []

/-- Function `getStreamHeaders` from `source.ts`: keep only string-valued entries. -/
def getStreamHeaders (st : RawStream) : List (String × String) :=
  match st.headers with
  | some hs => hs.filterMap fun p => p.2.map fun v => (p.1, v)
  | none => []

/-- The `...(Object.keys(headers).length > 0 && { headers })` spread:
the `headers` field is present on the response exactly when nonempty. -/
def presentHeaders (st : RawStream) : Option (List (String × String)) :=
  let h := getStreamHeaders st
  if h.length > 0 then some h else none

/-- Function `convertStreamToQuality` from `source.ts` (defined in the file but never
called by any route): hls uses `stream.quality || 'auto'` and `stream.playlist`;
file uses `stream.file.url`. -/
def convertStreamToQuality (stream : RawStream) : List StreamQuality :=
  match stream.type with
  | .hls =>
    if jsTruthy stream.playlist then
      [{ quality := jsOr stream.quality "auto", url := stream.playlist.getD "" }]
    else []
  | .file =>
    match stream.file with
    | some f => if jsTruthy f.url then [{ quality := jsOr stream.quality "auto", url := f.url.getD "" }] else []
    | none => []
  | .other => []

/-- Loop body of `extractCaptions` from `source.ts` (defined in the file but never called
by any route): `label || language || "Subtitle {i+1}"` and `url || src || ''`. -/
def extractCaptionsHelper (k : Nat) : List RawCaption → List Caption
  | [] => []
  | c :: rest =>
    { language := jsOr c.label (jsOr c.language ("Subtitle " ++ toString (k + 1))),
      url := jsOr c.url (jsOr c.src ""),
      default := k == 0 } :: extractCaptionsHelper (k + 1) rest

/-! ## The `/get` handler -/

/-- Outcome of awaiting one of the provider library's async calls:
it either throws (including the 30-second timeout race for `runAll`)
or resolves to a value, possibly `null`. -/
inductive Outcome (α : Type) where
  | threw
  | resolved (v : Option α)
deriving DecidableEq

/-- Result of `providers.runAll`. -/
structure RunAllResult where
  sourceId : Option String
  stream : Option RawStream
deriving DecidableEq

/-- An embed candidate returned by a source scraper. -/
structure Embed where
  embedId : String
  url : String
deriving DecidableEq

/-- Result of `providers.runSourceScraper` (`embeds` is `none` when absent). -/
structure SourceResult where
  stream : Option RawStream
  embeds : Option (List Embed)
deriving DecidableEq

/-- Result of `providers.runEmbedScraper`. -/
structure EmbedResult where
  stream : Option RawStream
deriving DecidableEq

/-- TMDB metadata body (only the fields the handler reads for the media title). -/
structure TmdbData where
  title : Option String
  name : Option String
deriving DecidableEq

/-- The external world of one `/get` request: the TMDB fetch outcome
(`none` models a caught fetch failure, leaving `tmdbData = {}`), whether
`getProviderInstance` resolves to a non-null client, and the outcomes of
the scraper calls the handler may make. -/
structure Env where
  tmdb : Option TmdbData
  providerAvailable : Bool
  runAll : Outcome RunAllResult
  runSource : String → Outcome SourceResult
  runEmbed : String → String → Outcome EmbedResult

/-- The query parameters of a `/get` request (`quality` is read but unused). -/
structure Query where
  tmdbId : Option String
  type : Option String
  season : Option String
  episode : Option String
deriving DecidableEq

/-- The `media` object the handler builds (the `season`, `episode` and
`releaseYear` fields are omitted: no verified property reads them). -/
structure Media where
  type : String
  tmdbId : String
  title : Option String
deriving DecidableEq

/-- The `media` construction: `type === 'movie' ? 'movie' : 'show'`,
`tmdbId = String(tmdbId)`, `title = tmdbData.title || tmdbData.name || undefined`. -/
def mkMedia (env : Env) (q : Query) : Media :=
  { type := if q.type == some "movie" then "movie" else "show",
    tmdbId := q.tmdbId.getD "",
    title :=
      match env.tmdb with
      | some t => jsOr3 t.title t.name
      | none => none }

/-- The `data` object of a success response. -/
structure SuccessData where
  title : String
  type : MediaType
  qualities : List StreamQuality
  captions : List Caption
  sourceProvider : String
  headers : Option (List (String × String))
deriving DecidableEq

/-- A response the `/get` handler can write. -/
inductive GetResponse where
  /-- One of the three 400 validation responses, carrying its error message. -/
  | validationError (msg : String)
  /-- `{success: true, data, fallbacks}` (status 200). -/
  | success (data : SuccessData) (fallbacks : List String)
  /-- The `!isUsingProviderSource` response
  `{success: false, error, fallbacks}` (status 200). -/
  | fallback (fallbacks : List String)
deriving DecidableEq

/-- HTTP status of a response. -/
def GetResponse.status : GetResponse → Nat
  | .validationError _ => 400
  | .success _ _ => 200
  | .fallback _ => 200

/-- Whether a response is a success response. -/
def GetResponse.isSuccess : GetResponse → Bool
  | .success _ _ => true
  | _ => false

/-- The fallback list a response carries, when it carries one. -/
def GetResponse.fallbackList : GetResponse → Option (List String)
  | .validationError _ => none
  | .success _ fb => some fb
  | .fallback fb => some fb

/-- The three-domain fallback list attached to success (and inner-500) responses. -/
def fallback3 : List String := ["videasy.net", "vidlink.pro", "vidsrc.pro"]

/-- The four-domain fallback list of the `!isUsingProviderSource` response. -/
def fallback4 : List String := ["videasy.net", "vidlink.pro", "vidsrc.pro", "superembed"]

/-- External calls the handler makes, in order. -/
inductive Effect where
  | tmdbFetch
  | getProvider
  | runAllCall
  | runSourceCall (id : String)
  | runEmbedCall (id : String)
deriving DecidableEq

/-- What one `/get` request produces: the response written (if any — the
handler can fall off the end without writing one), the final value of the
`isUsingProviderSource` flag, and the external calls made. -/
structure HandlerOut where
  response : Option GetResponse
  isUsingProviderSource : Bool
  effects : List Effect
deriving DecidableEq

/-- The success response assembled at each of the three return sites:
`title = media.tmdbId.toString()`, headers present only when nonempty. -/
def mkSuccess (media : Media) (st : RawStream) (sp : String) : SuccessData :=
  { title := media.tmdbId,
    type := streamTypeOf st,
    qualities := buildQualities st,
    captions := extractCaptionsInline st.captions,
    sourceProvider := sp,
    headers := presentHeaders st }

/-- The first-embed attempt inside one source iteration: only `embeds[0]`
is tried; a throw of the embed scraper is caught (`continue`). Returns the
response written (if any) and the embed calls made. -/
def tryEmbeds (env : Env) (media : Media) (sourceId : String) (sr : SourceResult) :
    Option GetResponse × List Effect :=
  match sr.embeds with
  | some embeds =>
    if embeds.length > 0 then
      match embeds.head? with
      | some embed =>
        match env.runEmbed embed.embedId embed.url with
        | .threw => (none, [.runEmbedCall embed.embedId])
        | .resolved none => (none, [.runEmbedCall embed.embedId])
        | .resolved (some er) =>
          match er.stream with
          | none => (none, [.runEmbedCall embed.embedId])
          | some st =>
            if (buildQualities st).length > 0 then
              (some (.success (mkSuccess media st (sourceId ++ " → " ++ embed.embedId)) fallback3),
               [.runEmbedCall embed.embedId])
            else (none, [.runEmbedCall embed.embedId])
      | none => (none, [])
    else (none, [])
  | none => (none, [])

/-- One iteration of the individual-source loop: a throw of the source
scraper is caught (`continue`); a direct stream with at least one quality
entry returns success with `sourceProvider = sourceId`; otherwise the
first embed is tried. -/
def trySource (env : Env) (media : Media) (sourceId : String) :
    Option GetResponse × List Effect :=
  match env.runSource sourceId with
  | .threw => (none, [.runSourceCall sourceId])
  | .resolved none => (none, [.runSourceCall sourceId])
  | .resolved (some sr) =>
    match sr.stream with
    | some st =>
      if (buildQualities st).length > 0 then
        (some (.success (mkSuccess media st sourceId) fallback3), [.runSourceCall sourceId])
      else
        ((tryEmbeds env media sourceId sr).1,
         .runSourceCall sourceId :: (tryEmbeds env media sourceId sr).2)
    | none =>
      ((tryEmbeds env media sourceId sr).1,
       .runSourceCall sourceId :: (tryEmbeds env media sourceId sr).2)

/-- The fixed ordered source-id list of the individual-source phase. -/
def sourcesList : List String := ["8stream", "ee3", "streambox", "soapertv", "whvxMirrors"]

/-- The sequential `for (const sourceId of sources)` loop: stops at the
first iteration that writes a response. -/
def runSources (env : Env) (media : Media) : List String → Option GetResponse × List Effect
  | [] => (none, [])
  | s :: rest =>
    match (trySource env media s).1 with
    | some resp => (some resp, (trySource env media s).2)
    | none =>
      ((runSources env media rest).1,
       (trySource env media s).2 ++ (runSources env media rest).2)

/-- The `/get` handler of `source.ts`: validation, TMDB fetch (non-fatal),
provider acquisition (a null client throws, caught by the scraper-error
handler, leading to the `!isUsingProviderSource` response), the `runAll`
aggregate phase raced against the 30-second timeout (a throw or timeout
leaves `result = null`), and the individual-source loop. -/
def handleGet (env : Env) (q : Query) : HandlerOut :=
  if !jsTruthy q.tmdbId || !jsTruthy q.type then
    { response := some (.validationError "Missing required parameters: tmdbId and type"),
      isUsingProviderSource := false, effects := [] }
  else if q.type != some "movie" && q.type != some "tv" then
    { response := some (.validationError "Type must be \x22movie\x22 or \x22tv\x22"),
      isUsingProviderSource := false, effects := [] }
  else if q.type == some "tv" && (!jsTruthy q.season || !jsTruthy q.episode) then
    { response := some (.validationError "Season and episode are required for TV shows"),
      isUsingProviderSource := false, effects := [] }
  else
    if !env.providerAvailable then
      { response := some (.fallback fallback4),
        isUsingProviderSource := false, effects := [.tmdbFetch, .getProvider] }
    else
      let media := mkMedia env q
      match env.runAll with
      | .resolved (some result) =>
        match result.stream with
        | some st =>
          if (buildQualities st).length > 0 then
            { response := some (.success (mkSuccess media st (jsOr result.sourceId "unknown")) fallback3),
              isUsingProviderSource := true,
              effects := [.tmdbFetch, .getProvider, .runAllCall] }
          else
            { response := none,
              isUsingProviderSource := true,
              effects := [.tmdbFetch, .getProvider, .runAllCall] }
        | none =>
          { response := some ((runSources env media sourcesList).1.getD (.fallback fallback4)),
            isUsingProviderSource := false,
            effects := [.tmdbFetch, .getProvider, .runAllCall] ++ (runSources env media sourcesList).2 }
      | _ =>
        { response := some ((runSources env media sourcesList).1.getD (.fallback fallback4)),
          isUsingProviderSource := false,
          effects := [.tmdbFetch, .getProvider, .runAllCall] ++ (runSources env media sourcesList).2 }

/-- The conjunction of the three validation checks passing. -/
def validQuery (q : Query) : Bool :=
  !(!jsTruthy q.tmdbId || !jsTruthy q.type) &&
  !(q.type != some "movie" && q.type != some "tv") &&
  !(q.type == some "tv" && (!jsTruthy q.season || !jsTruthy q.episode))

/-- Predicate: `runAll` threw (or timed out),
resolved to null, or resolved to a result without a stream. -/
def runAllNoStream (o : Outcome RunAllResult) : Bool :=
  match o with
  | .threw => true
  | .resolved none => true
  | .resolved (some r) => r.stream.isNone

/-! ## The provider client lifecycle manager (`providerManager.ts`)

Module state: `providersInstance` (the singleton client, identified by a
numeric id) and `loadPromise` (the cached initialization promise,
identified by the numeric id it was created with). A call to
`getProviderInstance` either returns the existing instance, returns the
cached promise, or creates a fresh promise (beginning one underlying
initialization attempt). The async initialization body later settles that
promise: on success it has assigned `providersInstance`; on failure it
returned `null`, leaving both `providersInstance` unset and `loadPromise`
still cached. `resetProviderInstance` clears both. -/

/-- Module-level state of `providerManager.ts`, plus bookkeeping: `nextId`
supplies fresh promise ids and `started` counts initialization attempts begun. -/
structure PMState where
  providersInstance : Option Nat
  loadPromise : Option Nat
  nextId : Nat
  started : Nat
deriving DecidableEq

/-- The value `getProviderInstance` returns: the instance itself, or a
promise (pending or settled), identified by id. -/
inductive PMCallResult where
  | instance (c : Nat)
  | promise (p : Nat)
deriving DecidableEq

/-- State at process start: no instance, no promise. -/
def pmInit : PMState :=
  { providersInstance := none, loadPromise := none, nextId := 0, started := 0 }

/-- One call to `getProviderInstance`: return the instance if set; else
return the cached `loadPromise` if set; else create the promise (one new
initialization attempt begins). -/
def getProviderInstance (s : PMState) : PMCallResult × PMState :=
  match s.providersInstance with
  | some c => (.instance c, s)
  | none =>
    match s.loadPromise with
    | some p => (.promise p, s)
    | none =>
      (.promise s.nextId,
       { providersInstance := s.providersInstance, loadPromise := some s.nextId,
         nextId := s.nextId + 1, started := s.started + 1 })

/-- Events acting on the module state: a call to `getProviderInstance`,
the in-flight initialization settling successfully (the async body has
assigned `providersInstance := some c`) or unsuccessfully (the catch
returned `null`: nothing changes, the settled promise stays cached), and
`resetProviderInstance`. -/
inductive PMEvent where
  | call
  | settleOk (c : Nat)
  | settleFail
  | reset
deriving DecidableEq

/-- Transition of the module state under one event. A settlement is only
meaningful while an attempt exists (`loadPromise` set). -/
def pmStep (s : PMState) (e : PMEvent) : PMState :=
  match e with
  | .call => (getProviderInstance s).2
  | .settleOk c => if s.loadPromise.isSome then { s with providersInstance := some c } else s
  | .settleFail => s
  | .reset => { s with providersInstance := none, loadPromise := none }

/-- Run a sequence of events from a state. -/
def pmRun (s : PMState) : List PMEvent → PMState
  | [] => s
  | e :: es => pmRun (pmStep s e) es

/-! ## Concrete test fixtures -/

/-- An HLS raw stream with the given playlist URL and nothing else. -/
def hlsStream (p : String) : RawStream :=
  { type := .hls, playlist := some p, qualities := none, captions := none,
    headers := none, quality := none, file := none }

/-- An HLS raw stream without a playlist URL: it normalizes to zero quality entries. -/
def hlsNoPlaylist : RawStream :=
  { type := .hls, playlist := none, qualities := none, captions := none,
    headers := none, quality := none, file := none }

/-- A valid movie query. -/
def qMovie603 : Query :=
  { tmdbId := some "603", type := some "movie", season := none, episode := none }

/-! ## Helper lemmas -/

/-- A raw caption carrying `label` and `src` but neither `language` nor `url`. -/
def c5Caption : RawCaption :=
  { label := some "English", language := none, url := none, src := some "http://subs/en.vtt" }

/-- An aggregate stream carrying the caption above and a valid playlist. -/
def c5Stream : RawStream :=
  { type := .hls, playlist := some "http://cdn/c5.m3u8", qualities := none,
    captions := some [c5Caption], headers := none, quality := none, file := none }

/-- Environment in which `runAll` resolves to the stream above. -/
def c5Env : Env :=
  { tmdb := none, providerAvailable := true,
    runAll := .resolved (some { sourceId := some "agg", stream := some c5Stream }),
    runSource := fun _ => .resolved none,
    runEmbed := fun _ _ => .resolved none }

/-- A TV query missing the episode parameter. -/
def qTvNoEpisode : Query :=
  { tmdbId := some "1399", type := some "tv", season := some "1", episode := none }

/-- An environment in which every external call would succeed, used to
witness that the validation short-circuit ignores the environment. -/
def liveEnv : Env :=
  { tmdb := some { title := some "Game of Thrones", name := none },
    providerAvailable := true,
    runAll := .resolved (some { sourceId := some "agg", stream := some (hlsStream "http://cdn/live.m3u8") }),
    runSource := fun _ => .resolved none,
    runEmbed := fun _ _ => .resolved none }

/-- The success data `liveEnv` produces for `qMovie603`. -/
def c10Data : SuccessData :=
  { title := "603", type := .hls,
    qualities := [{ quality := "auto", url := "http://cdn/live.m3u8" }],
    captions := [], sourceProvider := "agg", headers := none }

/-- Environment whose `runAll` resolves to a stream that normalizes to
zero quality entries. -/
def c2Env : Env :=
  { tmdb := none, providerAvailable := true,
    runAll := .resolved (some { sourceId := some "agg2", stream := some hlsNoPlaylist }),
    runSource := fun _ => .resolved none,
    runEmbed := fun _ _ => .resolved none }

/-- A valid movie query with tmdbId 550. -/
def qMovie550 : Query :=
  { tmdbId := some "550", type := some "movie", season := none, episode := none }

/-- Environment for C1: `runAll` yields a stream normalizing to zero
quality entries while the first individual source (8stream) would have
yielded a valid stream. -/
def c1Env : Env :=
  { tmdb := none, providerAvailable := true,
    runAll := .resolved (some { sourceId := some "agg", stream := some hlsNoPlaylist }),
    runSource := fun s =>
      if s = "8stream" then
        .resolved (some { stream := some (hlsStream "http://cdn/8stream.m3u8"), embeds := none })
      else .resolved none,
    runEmbed := fun _ _ => .resolved none }

/-- Environment with a working provider client whose cascade finds no
stream anywhere. -/
def c4Env : Env :=
  { tmdb := none, providerAvailable := true,
    runAll := .resolved none,
    runSource := fun _ => .resolved none,
    runEmbed := fun _ _ => .resolved none }

/-- A valid movie query with tmdbId 770. -/
def qMovie770 : Query :=
  { tmdbId := some "770", type := some "movie", season := none, episode := none }

/-- Environment for the C6 counterexample: `runAll` throws; 8stream has no
direct stream but one embed whose scraper yields a valid stream; ee3 has a
valid direct stream. -/
def c6Env : Env :=
  { tmdb := none, providerAvailable := true,
    runAll := .threw,
    runSource := fun s =>
      if s = "8stream" then
        .resolved (some { stream := none, embeds := some [{ embedId := "turbovid", url := "http://embed/x" }] })
      else if s = "ee3" then
        .resolved (some { stream := some (hlsStream "http://cdn/ee3.m3u8"), embeds := none })
      else .resolved none,
    runEmbed := fun _ _ => .resolved (some { stream := some (hlsStream "http://cdn/embed.m3u8") }) }

/-- Environment for the C6 witness: `runAll` throws and 8stream returns a
valid direct stream. -/
def c6wEnv : Env :=
  { tmdb := none, providerAvailable := true,
    runAll := .threw,
    runSource := fun s =>
      if s = "8stream" then
        .resolved (some { stream := some (hlsStream "http://cdn/8s.m3u8"), embeds := none })
      else .resolved none,
    runEmbed := fun _ _ => .resolved none }

theorem captionsFrom_length (cs : List RawCaption) : ∀ k, (captionsFrom k cs).length = cs.length := by
  induction cs with
  | nil => intro k; rfl
  | cons c rest ih => intro k; simp [captionsFrom, ih]

theorem captionsFrom_getElem (cs : List RawCaption) : ∀ (k i : Nat),
    (captionsFrom k cs)[i]? = (cs[i]?).map fun c =>
      { language := jsOr c.language ("Subtitle " ++ toString (k + i + 1)),
        url := jsOr c.url "",
        default := k + i == 0 } := by
  induction cs with
  | nil => intro k i; simp [captionsFrom]
  | cons c rest ih =>
    intro k i
    cases i with
    | zero => simp [captionsFrom]
    | succ n =>
      simp only [captionsFrom, List.getElem?_cons_succ]
      rw [ih (k + 1) n]
      have h : k + 1 + n = k + (n + 1) := by omega
      rw [h]

/-! ## Claim theorems -/

/-- C8: For every raw stream of kind hls that carries a playlist URL,
the cascade's normalization yields exactly one quality entry, and that
entry's quality label is the string "auto". -/
theorem C8_hls_single_auto_quality (st : RawStream)
    (hty : st.type = .hls) (hpl : jsTruthy st.playlist = true) :
    buildQualities st = [{ quality := "auto", url := st.playlist.getD "" }] := by
  simp [buildQualities, hty, hpl]

/-- Witness for C8 at a concrete HLS stream. -/
theorem C8_hls_single_auto_quality_witness :
    buildQualities (hlsStream "http://cdn/playlist.m3u8") =
      [{ quality := "auto", url := "http://cdn/playlist.m3u8" }] :=
  C8_hls_single_auto_quality (hlsStream "http://cdn/playlist.m3u8") rfl rfl

/-- C5 counterexample: a caption carrying `label = "English"` and
`src = "http://subs/en.vtt"` (but no `language` and no `url`) is emitted by
the cascade with `language = "Subtitle 1"` and `url = ""` — not with the
label as language and the src as url, as the claim states. -/
theorem C5_counterexample :
    c5Caption.label = some "English" ∧ c5Caption.src = some "http://subs/en.vtt" ∧
    (handleGet c5Env qMovie603).response =
      some (.success
        { title := "603", type := .hls,
          qualities := [{ quality := "auto", url := "http://cdn/c5.m3u8" }],
          captions := [{ language := "Subtitle 1", url := "", default := true }],
          sourceProvider := "agg", headers := none } fallback3) ∧
    "Subtitle 1" ≠ "English" ∧ ("" : String) ≠ "http://subs/en.vtt" :=
  ⟨rfl, rfl, by decide, by decide, by decide⟩

/-- C5 (amended): for every caption list processed by the cascade's
normalization, each emitted entry has language equal to the raw entry's
`language` field if present and nonempty, else "Subtitle {1-based index}"
(the `label` field is ignored), and url equal to the raw entry's `url`
field if present and nonempty, else the empty string (the `src` field is
ignored), with the first entry flagged default and input order preserved. -/
theorem C5_amended_caption_shape (cs : List RawCaption) (i : Nat) :
    (extractCaptionsInline (some cs)).length = cs.length ∧
    (extractCaptionsInline (some cs))[i]? = (cs[i]?).map fun c =>
      { language := jsOr c.language ("Subtitle " ++ toString (i + 1)),
        url := jsOr c.url "",
        default := i == 0 } := by
  constructor
  · simpa [extractCaptionsInline] using captionsFrom_length cs 0
  · simpa [extractCaptionsInline] using captionsFrom_getElem cs 0 i

/-- C9: For every GET /get request with type=tv where season or episode is
missing, the handler responds with a 400 validation failure and makes no
external call: TMDB, the provider client, and the scrapers are never invoked. -/
theorem C9_tv_missing_params_validation (env : Env) (q : Query)
    (hty : q.type = some "tv")
    (hmiss : jsTruthy q.season = false ∨ jsTruthy q.episode = false) :
    (∃ msg, (handleGet env q).response = some (.validationError msg) ∧
            (GetResponse.validationError msg).status = 400) ∧
    (handleGet env q).effects = [] := by
  have hout : ∃ msg, handleGet env q =
      { response := some (.validationError msg), isUsingProviderSource := false, effects := [] } := by
    have htv : jsTruthy (some "tv") = true := by decide
    by_cases h1 : jsTruthy q.tmdbId
    · refine ⟨"Season and episode are required for TV shows", ?_⟩
      rcases hmiss with h | h <;> simp [handleGet, hty, htv, h1, h]
    · refine ⟨"Missing required parameters: tmdbId and type", ?_⟩
      simp [handleGet, h1]
  obtain ⟨msg, hmsg⟩ := hout
  rw [hmsg]
  exact ⟨⟨msg, rfl, rfl⟩, rfl⟩

/-- Witness for C9 on a concrete TV query missing its episode. -/
theorem C9_tv_missing_params_validation_witness :
    (∃ msg, (handleGet liveEnv qTvNoEpisode).response = some (.validationError msg) ∧
            (GetResponse.validationError msg).status = 400) ∧
    (handleGet liveEnv qTvNoEpisode).effects = [] :=
  C9_tv_missing_params_validation liveEnv qTvNoEpisode rfl (Or.inr rfl)

theorem tryEmbeds_success (env : Env) (media : Media) (s : String) (sr : SourceResult) (r : GetResponse)
    (h : (tryEmbeds env media s sr).1 = some r) :
    ∃ d, r = .success d fallback3 ∧ d.title = media.tmdbId := by
  unfold tryEmbeds at h
  iterate 8 (all_goals try split at h)
  all_goals simp at h
  all_goals exact ⟨_, h.symm, rfl⟩

theorem trySource_success (env : Env) (media : Media) (s : String) (r : GetResponse)
    (h : (trySource env media s).1 = some r) :
    ∃ d, r = .success d fallback3 ∧ d.title = media.tmdbId := by
  unfold trySource at h
  iterate 4 (all_goals try split at h)
  all_goals try (simp at h)
  all_goals try exact ⟨_, h.symm, rfl⟩
  all_goals exact tryEmbeds_success env media s _ r h

theorem runSources_success (env : Env) (media : Media) (l : List String) (r : GetResponse)
    (h : (runSources env media l).1 = some r) :
    ∃ d, r = .success d fallback3 ∧ d.title = media.tmdbId := by
  induction l with
  | nil => simp [runSources] at h
  | cons s rest ih =>
    unfold runSources at h
    split at h
    next resp heq =>
      simp at h
      rw [h] at heq
      exact trySource_success env media s r heq
    next heq =>
      exact ih (by simpa using h)

/-- C10: For every successful GET /get response, the title field of the
returned data equals the string of the requested tmdbId query parameter,
never the TMDB-fetched title, even when TMDB metadata was retrieved
(the conclusion holds for every environment, including those whose TMDB
fetch succeeded with a title). -/
theorem C10_title_is_tmdbId (env : Env) (q : Query) (d : SuccessData) (fb : List String)
    (h : (handleGet env q).response = some (.success d fb)) :
    d.title = q.tmdbId.getD "" ∧ q.tmdbId = some d.title := by
  have main : d.title = q.tmdbId.getD "" ∧ jsTruthy q.tmdbId = true := by
    unfold handleGet at h
    split at h
    next hc1 => simp at h
    next hc1 =>
    have htm : jsTruthy q.tmdbId = true := by
      simp at hc1
      exact hc1.1
    split at h
    next hc2 => simp at h
    next hc2 =>
    split at h
    next hc3 => simp at h
    next hc3 =>
    split at h
    next hc4 => simp at h
    next hc4 =>
    refine ⟨?_, htm⟩
    split at h
    next result heq =>
      split at h
      next st hst =>
        split at h
        next hq =>
          simp at h
          rw [← h.1]
          rfl
        next hq => simp at h
      next hst =>
        simp at h
        cases hr : (runSources env (mkMedia env q) sourcesList).1 with
        | none => rw [hr] at h; simp at h
        | some r =>
          rw [hr] at h
          simp at h
          obtain ⟨d0, hd0, ht0⟩ := runSources_success env (mkMedia env q) sourcesList r hr
          rw [h] at hd0
          cases hd0
          exact ht0
    next heq =>
      simp at h
      cases hr : (runSources env (mkMedia env q) sourcesList).1 with
      | none => rw [hr] at h; simp at h
      | some r =>
        rw [hr] at h
        simp at h
        obtain ⟨d0, hd0, ht0⟩ := runSources_success env (mkMedia env q) sourcesList r hr
        rw [h] at hd0
        cases hd0
        exact ht0
  refine ⟨main.1, ?_⟩
  have := main.2
  cases hq : q.tmdbId with
  | none => rw [hq] at this; simp [jsTruthy] at this
  | some s => rw [hq] at main; simp at main; rw [main.1]

/-- Witness for C10: in `liveEnv` the TMDB fetch succeeded with title
"Game of Thrones", yet the success response's title is "603", the request's
tmdbId. -/
theorem C10_title_is_tmdbId_witness :
    (c10Data.title = qMovie603.tmdbId.getD "" ∧ qMovie603.tmdbId = some c10Data.title) ∧
    liveEnv.tmdb = some { title := some "Game of Thrones", name := none } ∧
    c10Data.title ≠ "Game of Thrones" :=
  ⟨C10_title_is_tmdbId liveEnv qMovie603 c10Data fallback3 rfl, rfl, by decide⟩

theorem validQuery_spec (q : Query) (hv : validQuery q = true) :
    (!jsTruthy q.tmdbId || !jsTruthy q.type) = false ∧
    (q.type != some "movie" && q.type != some "tv") = false ∧
    (q.type == some "tv" && (!jsTruthy q.season || !jsTruthy q.episode)) = false := by
  simp only [validQuery, Bool.and_eq_true, Bool.not_eq_true'] at hv
  exact ⟨hv.1.1, hv.1.2, hv.2⟩

/-- C2: For every GET /get request passing validation, when `runAll`
resolves to a result carrying a stream whose normalization yields zero
quality entries, the handler sets `isUsingProviderSource` and terminates
without writing any HTTP response (no success body, no fallback body,
no 500), and never consults the individual sources. -/
theorem C2_aggregate_empty_qualities_silent (env : Env) (q : Query)
    (result : RunAllResult) (st : RawStream)
    (hv : validQuery q = true)
    (hp : env.providerAvailable = true)
    (hr : env.runAll = .resolved (some result))
    (hs : result.stream = some st)
    (hq : buildQualities st = []) :
    handleGet env q =
      { response := none, isUsingProviderSource := true,
        effects := [.tmdbFetch, .getProvider, .runAllCall] } := by
  obtain ⟨h1, h2, h3⟩ := validQuery_spec q hv
  unfold handleGet
  simp [h1, h2, h3, hp, hr, hs, hq]

/-- Witness for C2 at a concrete environment. -/
theorem C2_aggregate_empty_qualities_silent_witness :
    handleGet c2Env qMovie603 =
      { response := none, isUsingProviderSource := true,
        effects := [.tmdbFetch, .getProvider, .runAllCall] } :=
  C2_aggregate_empty_qualities_silent c2Env qMovie603
    { sourceId := some "agg2", stream := some hlsNoPlaylist } hlsNoPlaylist
    (by decide) rfl rfl rfl (by decide)

/-- C1: evaluation at the failing input. The aggregate phase yields a
stream that normalizes to zero quality entries; the claim (and the spec)
say the cascade must treat this as "no stream" and continue to the
individual-source phase, but the handler instead sets its flag and writes
no response at all: the effects list shows no source scraper was ever
invoked, although 8stream would have produced a valid stream. -/
theorem C1_failing_input_evaluation :
    buildQualities hlsNoPlaylist = [] ∧
    handleGet c1Env qMovie550 =
      { response := none, isUsingProviderSource := true,
        effects := [.tmdbFetch, .getProvider, .runAllCall] } ∧
    (trySource c1Env (mkMedia c1Env qMovie550) "8stream").1 =
      some (.success
        { title := "550", type := .hls,
          qualities := [{ quality := "auto", url := "http://cdn/8stream.m3u8" }],
          captions := [], sourceProvider := "8stream", headers := none } fallback3) := by
  refine ⟨by decide, by decide, by decide⟩

/-- C4 counterexample: with a working provider client (`runAll` was
invoked, every individual source was consulted), the non-success response
still carries the four-domain fallback list including superembed —
contradicting the claim that superembed is included exactly when no
provider client could be used at all. -/
theorem C4_counterexample :
    c4Env.providerAvailable = true ∧
    (handleGet c4Env qMovie603).effects =
      [.tmdbFetch, .getProvider, .runAllCall, .runSourceCall "8stream", .runSourceCall "ee3",
       .runSourceCall "streambox", .runSourceCall "soapertv", .runSourceCall "whvxMirrors"] ∧
    (handleGet c4Env qMovie603).response = some (.fallback fallback4) ∧
    "superembed" ∈ fallback4 :=
  ⟨rfl, by decide, by decide, by decide⟩

/-- C4 (amended): every non-success /get response either is a validation
error carrying no fallback list, or is the fallback response carrying
exactly videasy.net, vidlink.pro, vidsrc.pro, superembed; the latter is
produced exactly when validation passes and either no provider client
could be used or the aggregate phase yielded no stream-bearing result and
no individual source succeeded — regardless of whether a working client
was used. -/
theorem C4_amended_fallbacks (env : Env) (q : Query) :
    (∀ r, (handleGet env q).response = some r → r.isSuccess = false →
       (∃ msg, r = .validationError msg ∧ r.fallbackList = none) ∨ r = .fallback fallback4) ∧
    ((handleGet env q).response = some (.fallback fallback4) ↔
       validQuery q = true ∧ (env.providerAvailable = false ∨
         (runAllNoStream env.runAll = true ∧
          (runSources env (mkMedia env q) sourcesList).1 = none))) := by
  constructor
  · intro r h hns
    unfold handleGet at h
    split at h
    next hc1 => left; exact ⟨_, by simpa using h.symm, by rw [← (Option.some.injEq _ _).mp h]; rfl⟩
    next hc1 =>
    split at h
    next hc2 => left; exact ⟨_, by simpa using h.symm, by rw [← (Option.some.injEq _ _).mp h]; rfl⟩
    next hc2 =>
    split at h
    next hc3 => left; exact ⟨_, by simpa using h.symm, by rw [← (Option.some.injEq _ _).mp h]; rfl⟩
    next hc3 =>
    split at h
    next hc4 => right; simp at h; exact h.symm
    next hc4 =>
    split at h
    next result heq =>
      split at h
      next st hst =>
        split at h
        next hq => simp at h; rw [← h] at hns; simp [GetResponse.isSuccess] at hns
        next hq => simp at h
      next hst =>
        simp at h
        cases hr : (runSources env (mkMedia env q) sourcesList).1 with
        | none => rw [hr] at h; right; simp at h; exact h.symm
        | some r0 =>
          rw [hr] at h
          simp at h
          obtain ⟨d0, hd0, ht0⟩ := runSources_success env (mkMedia env q) sourcesList r0 hr
          rw [h] at hd0; rw [hd0] at hns; simp [GetResponse.isSuccess] at hns
    next heq =>
      simp at h
      cases hr : (runSources env (mkMedia env q) sourcesList).1 with
      | none => rw [hr] at h; right; simp at h; exact h.symm
      | some r0 =>
        rw [hr] at h
        simp at h
        obtain ⟨d0, hd0, ht0⟩ := runSources_success env (mkMedia env q) sourcesList r0 hr
        rw [h] at hd0; rw [hd0] at hns; simp [GetResponse.isSuccess] at hns
  · constructor
    · intro h
      unfold handleGet at h
      split at h
      next hc1 => simp at h
      next hc1 =>
      split at h
      next hc2 => simp at h
      next hc2 =>
      split at h
      next hc3 => simp at h
      next hc3 =>
      have hv : validQuery q = true := by
        simp only [validQuery]
        rw [Bool.eq_false_iff.mpr hc1, Bool.eq_false_iff.mpr hc2, Bool.eq_false_iff.mpr hc3]
        rfl
      refine ⟨hv, ?_⟩
      split at h
      next hc4 => left; simpa using hc4
      next hc4 =>
      right
      have hpa : env.providerAvailable = true := by
        revert hc4; cases env.providerAvailable <;> simp
      split at h
      next result heq =>
        split at h
        next st hst =>
          split at h
          next hq => simp at h
          next hq => simp at h
        next hst =>
          refine ⟨by simp [runAllNoStream, heq, hst], ?_⟩
          cases hr : (runSources env (mkMedia env q) sourcesList).1 with
          | none => rfl
          | some r0 =>
            simp at h
            rw [hr] at h
            simp at h
            obtain ⟨d0, hd0, ht0⟩ := runSources_success env (mkMedia env q) sourcesList r0 hr
            rw [h] at hd0
            simp at hd0
      next heq =>
        have hnos : runAllNoStream env.runAll = true := by
          cases ho : env.runAll with
          | threw => rfl
          | resolved v =>
            cases v with
            | none => rfl
            | some rr => exact absurd ho (heq rr)
        refine ⟨hnos, ?_⟩
        cases hr : (runSources env (mkMedia env q) sourcesList).1 with
        | none => rfl
        | some r0 =>
          simp at h
          rw [hr] at h
          simp at h
          obtain ⟨d0, hd0, ht0⟩ := runSources_success env (mkMedia env q) sourcesList r0 hr
          rw [h] at hd0
          simp at hd0
    · rintro ⟨hv, hcase⟩
      obtain ⟨h1, h2, h3⟩ := validQuery_spec q hv
      rcases hcase with hp | ⟨hnos, hsrc⟩
      · unfold handleGet
        simp [h1, h2, h3, hp]
      · unfold handleGet
        cases ho : env.runAll with
        | threw =>
          simp [h1, h2, h3, hsrc, ho]
          split <;> rfl
        | resolved v =>
          cases v with
          | none =>
            simp [h1, h2, h3, hsrc, ho]
            split <;> rfl
          | some rr =>
            have hstn : rr.stream = none := by
              rw [ho] at hnos
              simpa [runAllNoStream, Option.isNone_iff_eq_none] using hnos
            simp [h1, h2, h3, hsrc, ho, hstn]
            split <;> rfl

/-- Witness for C4 (amended) at a concrete environment. -/
theorem C4_amended_fallbacks_witness :
    (∃ msg, GetResponse.fallback fallback4 = .validationError msg ∧
            (GetResponse.fallback fallback4).fallbackList = none) ∨
    GetResponse.fallback fallback4 = .fallback fallback4 :=
  (C4_amended_fallbacks c4Env qMovie603).1 (.fallback fallback4) (by decide) (by decide)

theorem trySource_direct (env : Env) (media : Media) (s : String) (sr : SourceResult) (st : RawStream)
    (hs : env.runSource s = .resolved (some sr)) (hst : sr.stream = some st)
    (hq : 0 < (buildQualities st).length) :
    (trySource env media s).1 = some (.success (mkSuccess media st s) fallback3) := by
  simp [trySource, hs, hst, hq]

theorem runSources_cons_hit (env : Env) (media : Media) (s : String) (rest : List String)
    (r : GetResponse) (h : (trySource env media s).1 = some r) :
    (runSources env media (s :: rest)).1 = some r := by
  simp [runSources, h]

theorem runSources_append_skip (env : Env) (media : Media) (l₁ l₂ : List String)
    (h : ∀ x ∈ l₁, (trySource env media x).1 = none) :
    (runSources env media (l₁ ++ l₂)).1 = (runSources env media l₂).1 := by
  induction l₁ with
  | nil => rfl
  | cons s rest ih =>
    have hs := h s (List.mem_cons_self _ _)
    simp only [List.cons_append, runSources, hs]
    exact ih fun x hx => h x (List.mem_cons_of_mem _ hx)

theorem handleGet_noStream (env : Env) (q : Query)
    (hv : validQuery q = true) (hp : env.providerAvailable = true)
    (hn : runAllNoStream env.runAll = true) :
    (handleGet env q).response =
      some ((runSources env (mkMedia env q) sourcesList).1.getD (.fallback fallback4)) := by
  obtain ⟨h1, h2, h3⟩ := validQuery_spec q hv
  unfold handleGet
  cases ho : env.runAll with
  | threw => simp [h1, h2, h3, hp, ho]
  | resolved v =>
    cases v with
    | none => simp [h1, h2, h3, hp, ho]
    | some rr =>
      have hstn : rr.stream = none := by
        rw [ho] at hn
        simpa [runAllNoStream, Option.isNone_iff_eq_none] using hn
      simp [h1, h2, h3, hp, ho, hstn]

/-- C6 counterexample: ee3 is the first (and only) source in the list whose
direct stream normalizes to at least one quality entry, yet the cascade
returns Success with sourceProvider "8stream → turbovid" (the earlier
source's first embed), not "ee3" as the claim states. -/
theorem C6_counterexample :
    runAllNoStream c6Env.runAll = true ∧
    c6Env.runSource "8stream" =
      .resolved (some { stream := none, embeds := some [{ embedId := "turbovid", url := "http://embed/x" }] }) ∧
    c6Env.runSource "ee3" =
      .resolved (some { stream := some (hlsStream "http://cdn/ee3.m3u8"), embeds := none }) ∧
    0 < (buildQualities (hlsStream "http://cdn/ee3.m3u8")).length ∧
    (handleGet c6Env qMovie770).response =
      some (.success
        { title := "770", type := .hls,
          qualities := [{ quality := "auto", url := "http://cdn/embed.m3u8" }],
          captions := [], sourceProvider := "8stream → turbovid", headers := none } fallback3) ∧
    "8stream → turbovid" ≠ "ee3" :=
  ⟨rfl, by decide, by decide, by decide, by decide, by decide⟩

/-- C6 (amended): when `runAll` throws or yields no stream, the cascade
iterates exactly the fixed list 8stream, ee3, streambox, soapertv,
whvxMirrors in order; at the first source producing a usable result it
stops, and when that source's direct stream normalizes to at least one
quality entry the response is Success with sourceProvider equal to that
source id (an earlier source may instead succeed through its first embed,
in which case the loop stops there); in particular, when runAll throws but
runSourceScraper("8stream", ...) returns a valid stream, the response is
Success with sourceProvider "8stream". -/
theorem C6_amended_source_loop (env : Env) (q : Query)
    (hv : validQuery q = true) (hp : env.providerAvailable = true)
    (hn : runAllNoStream env.runAll = true) :
    sourcesList = ["8stream", "ee3", "streambox", "soapertv", "whvxMirrors"] ∧
    (∀ l₁ s l₂, sourcesList = l₁ ++ s :: l₂ →
      (∀ x ∈ l₁, (trySource env (mkMedia env q) x).1 = none) →
      ∀ sr st, env.runSource s = .resolved (some sr) → sr.stream = some st →
        0 < (buildQualities st).length →
        (handleGet env q).response =
          some (.success (mkSuccess (mkMedia env q) st s) fallback3) ∧
        (mkSuccess (mkMedia env q) st s).sourceProvider = s) ∧
    (∀ sr st, env.runSource "8stream" = .resolved (some sr) → sr.stream = some st →
      0 < (buildQualities st).length →
      (handleGet env q).response =
        some (.success (mkSuccess (mkMedia env q) st "8stream") fallback3)) := by
  have hgen : ∀ l₁ s l₂, sourcesList = l₁ ++ s :: l₂ →
      (∀ x ∈ l₁, (trySource env (mkMedia env q) x).1 = none) →
      ∀ sr st, env.runSource s = .resolved (some sr) → sr.stream = some st →
        0 < (buildQualities st).length →
        (handleGet env q).response =
          some (.success (mkSuccess (mkMedia env q) st s) fallback3) ∧
        (mkSuccess (mkMedia env q) st s).sourceProvider = s := by
    intro l₁ s l₂ hdec hskip sr st hs hst hq
    have hts := trySource_direct env (mkMedia env q) s sr st hs hst hq
    have hrun : (runSources env (mkMedia env q) sourcesList).1 =
        some (.success (mkSuccess (mkMedia env q) st s) fallback3) := by
      rw [hdec, runSources_append_skip env (mkMedia env q) l₁ (s :: l₂) hskip]
      exact runSources_cons_hit env (mkMedia env q) s l₂ _ hts
    rw [handleGet_noStream env q hv hp hn, hrun]
    exact ⟨rfl, rfl⟩
  refine ⟨rfl, hgen, ?_⟩
  intro sr st hs hst hq
  exact (hgen [] "8stream" ["ee3", "streambox", "soapertv", "whvxMirrors"] rfl
    (fun x hx => absurd hx (List.not_mem_nil x)) sr st hs hst hq).1

/-- Witness for C6 (amended): runAll throws, 8stream has a valid stream,
and the response is Success from 8stream. -/
theorem C6_amended_source_loop_witness :
    (handleGet c6wEnv qMovie603).response =
      some (.success (mkSuccess (mkMedia c6wEnv qMovie603) (hlsStream "http://cdn/8s.m3u8") "8stream") fallback3) :=
  (C6_amended_source_loop c6wEnv qMovie603 (by decide) rfl rfl).2.2
    { stream := some (hlsStream "http://cdn/8s.m3u8"), embeds := none }
    (hlsStream "http://cdn/8s.m3u8") (by decide) rfl (by decide)

theorem pmRun_started_stable (es : List PMEvent) : ∀ (s : PMState),
    PMEvent.reset ∉ es → s.loadPromise.isSome = true →
    (pmRun s es).started = s.started ∧ (pmRun s es).loadPromise.isSome = true := by
  induction es with
  | nil => intro s _ h; exact ⟨rfl, h⟩
  | cons e rest ih =>
    intro s hnr hl
    have hnr2 : PMEvent.reset ∉ rest := fun hx => hnr (List.mem_cons_of_mem _ hx)
    cases e with
    | call =>
      have hstep : pmStep s .call = s := by
        cases hi : s.providersInstance with
        | some c => simp [pmStep, getProviderInstance, hi]
        | none =>
          obtain ⟨p, hp⟩ := Option.isSome_iff_exists.mp hl
          simp [pmStep, getProviderInstance, hi, hp]
      simp only [pmRun, hstep]
      exact ih s hnr2 hl
    | settleOk c =>
      have hstep : pmStep s (.settleOk c) = { s with providersInstance := some c } := by
        simp [pmStep, hl]
      simp only [pmRun, hstep]
      exact ih _ hnr2 hl
    | settleFail =>
      simp only [pmRun, pmStep]
      exact ih s hnr2 hl
    | reset => exact absurd (List.mem_cons_self _ _) hnr

theorem pmRun_one_attempt (es : List PMEvent) : PMEvent.reset ∉ es → PMEvent.call ∈ es →
    (pmRun pmInit es).started = 1 := by
  induction es with
  | nil => intro _ hc; cases hc
  | cons e rest ih =>
    intro hnr hc
    have hnr2 : PMEvent.reset ∉ rest := fun hx => hnr (List.mem_cons_of_mem _ hx)
    cases e with
    | call =>
      have hstep : pmStep pmInit .call =
          { providersInstance := none, loadPromise := some 0, nextId := 1, started := 1 } := rfl
      simp only [pmRun, hstep]
      exact (pmRun_started_stable rest
        { providersInstance := none, loadPromise := some 0, nextId := 1, started := 1 } hnr2 rfl).1
    | settleOk c =>
      have hstep : pmStep pmInit (.settleOk c) = pmInit := rfl
      simp only [pmRun, hstep]
      refine ih hnr2 ?_
      rcases List.mem_cons.mp hc with h | h
      · cases h
      · exact h
    | settleFail =>
      have hstep : pmStep pmInit .settleFail = pmInit := rfl
      simp only [pmRun, hstep]
      refine ih hnr2 ?_
      rcases List.mem_cons.mp hc with h | h
      · cases h
      · exact h
    | reset => exact absurd (List.mem_cons_self _ _) hnr

/-- C7: whenever no client instance exists but an initialization promise
is cached, a call to getProviderInstance returns that same promise and
leaves the state unchanged (no second initialization); and over any event
sequence from process start without a reset, any number of calls cause
exactly one underlying initialization attempt. -/
theorem C7_single_flight :
    (∀ (s : PMState) (p : Nat), s.providersInstance = none → s.loadPromise = some p →
      getProviderInstance s = (.promise p, s)) ∧
    (∀ es : List PMEvent, PMEvent.reset ∉ es → PMEvent.call ∈ es →
      (pmRun pmInit es).started = 1) :=
  ⟨fun s p hi hl => by simp [getProviderInstance, hi, hl], pmRun_one_attempt⟩

/-- Witness for C7: a pending-promise state returns the cached promise,
and the trace call-call-settleFail-call starts exactly one attempt. -/
theorem C7_single_flight_witness :
    getProviderInstance { providersInstance := none, loadPromise := some 0, nextId := 1, started := 1 } =
      (.promise 0, { providersInstance := none, loadPromise := some 0, nextId := 1, started := 1 }) ∧
    (pmRun pmInit [.call, .call, .settleFail, .call]).started = 1 :=
  ⟨C7_single_flight.1 _ 0 rfl rfl, C7_single_flight.2 _ (by decide) (by decide)⟩

/-- C3 counterexample: the trace call-settleFail models one initialization
attempt whose promise settles to null; the module state keeps the settled
promise cached in loadPromise. A later call returns that same cached
promise (id 0) with the state unchanged: the attempt counter stays at 1,
so no fresh initialization attempt begins — contradicting the claim. -/
theorem C3_counterexample :
    pmRun pmInit [.call, .settleFail] =
      { providersInstance := none, loadPromise := some 0, nextId := 1, started := 1 } ∧
    getProviderInstance (pmRun pmInit [.call, .settleFail]) =
      (.promise 0, pmRun pmInit [.call, .settleFail]) ∧
    (getProviderInstance (pmRun pmInit [.call, .settleFail])).2.started = 1 :=
  ⟨rfl, rfl, rfl⟩

/-- C3 (amended): after a failed initialization attempt settles to null,
a later call to getProviderInstance (without an intervening reset) returns
the same cached promise and does not begin a fresh attempt; a fresh
attempt begins only after resetProviderInstance clears the cached promise. -/
theorem C3_amended_failure_cached (s : PMState) (p : Nat)
    (hinst : s.providersInstance = none) (hload : s.loadPromise = some p) :
    getProviderInstance s = (.promise p, s) ∧
    (getProviderInstance (pmStep s .reset)).2.started = s.started + 1 := by
  constructor
  · simp [getProviderInstance, hinst, hload]
  · simp [pmStep, getProviderInstance]

/-- Witness for C3 (amended) at the concrete post-failure state. -/
theorem C3_amended_failure_cached_witness :
    getProviderInstance { providersInstance := none, loadPromise := some 0, nextId := 1, started := 1 } =
      (.promise 0, { providersInstance := none, loadPromise := some 0, nextId := 1, started := 1 }) ∧
    (getProviderInstance (pmStep { providersInstance := none, loadPromise := some 0, nextId := 1, started := 1 }
      PMEvent.reset)).2.started = 2 :=
  C3_amended_failure_cached
    { providersInstance := none, loadPromise := some 0, nextId := 1, started := 1 } 0 rfl rfl
